import Mathlib

/-!
A verification development for the ADB (Apple Desktop Bus) sigrok protocol
decoder found in src/decoders/adb/pd.py.

The decoder is embedded shallowly:
* sample indices are natural numbers, measured widths are exact rationals
  (the Python code computes with floats; every constant involved here is a
  decimal fraction represented exactly by a rational, and every comparison
  settled below is far from any rounding boundary);
* the sigrok edge-wait primitive wait(0, f) / wait(0, r) becomes a function
  that scans a finite list of edges for the next one of the requested
  direction, returning none when the capture is exhausted (which ends the
  decode loop, exactly as the sigrok runtime ends a decoder when input runs
  out);
* annotations put(ss, es, out_ann, [cls, texts]) become an Ann record;
* the decode-local Python variable holding the command label texts is an
  Option value that starts out none: emitting it while it is none models
  the UnboundLocalError the Python interpreter raises there.
-/

namespace ADB

/-- Direction of a signal edge on the single ADB channel. -/
inductive Dir where
  | f  -- falling edge
  | r  -- rising edge
deriving DecidableEq

/-- An edge of the sampled waveform: its direction and its sample index. -/
structure Edge where
  dir : Dir
  t : ℕ
deriving DecidableEq

/-- The sigrok wait primitive for an edge condition: skip ahead to the next
edge of the requested direction, returning its sample index and the rest of
the capture, or none when the capture is exhausted. -/
def waitDir (d : Dir) : List Edge → Option (ℕ × List Edge)
  | [] => none
  | e :: es => if e.dir = d then some (e.t, es) else waitDir d es

/-- Keys of the timing dictionary in pd.py (nominal values). -/
inductive TKey where
  | RESET | ATTENTION | SYNC | BIT_CELL | BIT_0_LOW | BIT_1_LOW | STOP | STOP_SREQ | TLT
deriving DecidableEq

/-- Nominal timing values in microseconds, from the timing dictionary. -/
def timing : TKey → ℚ
  | .RESET => 3000
  | .ATTENTION => 800
  | .SYNC => 65
  | .BIT_CELL => 100
  | .BIT_0_LOW => 65
  | .BIT_1_LOW => 35
  | .STOP => 70
  | .STOP_SREQ => 300
  | .TLT => 200

/-- Tolerance entries of the timing dictionary (the _TOL keys). -/
def timingTol : TKey → ℚ
  | .RESET => 100
  | .ATTENTION => 24
  | .SYNC => 2
  | .BIT_CELL => 30
  | .BIT_0_LOW => 5
  | .BIT_1_LOW => 5
  | .STOP => 21
  | .STOP_SREQ => 90
  | .TLT => 60

/-- The tolerance option of the decoder: strict or relaxed. -/
inductive TolOpt where
  | strict | relaxed
deriving DecidableEq

/-- Decoder.check_tolerance: width is accepted iff it lies within
nominal plus or minus the resolved tolerance (the table tolerance as-is
under strict, multiplied by 1.1 under relaxed). -/
def check_tolerance (opt : TolOpt) (width : ℚ) (ty : TKey) : Bool :=
  let tolerance : ℚ :=
    match opt with
    | .strict => timingTol ty
    | .relaxed => timingTol ty * 1.1
  decide (timing ty - tolerance ≤ width ∧ width ≤ timing ty + tolerance)

/-- One emitted annotation: put(ss, es, out_ann, [cls, txt]). -/
structure Ann where
  ss : ℕ
  es : ℕ
  cls : ℕ
  txt : List String
deriving DecidableEq

/-- Python hex(n) for a natural number: 0x followed by lowercase hex digits. -/
def pyHex (n : ℕ) : String := "0x" ++ (Nat.toDigits 16 n).asString

/-- Python format-to-four-hex-digits (zero padded, lowercase, no 0x). -/
def pyHex04 (n : ℕ) : String :=
  let ds := Nat.toDigits 16 n
  (List.replicate (4 - ds.length) '0' ++ ds).asString

/-- Result of classifying one bit cell from its low and high sub-durations. -/
inductive BitClass where
  | Zero | One | Malformed
deriving DecidableEq

/-- The bit-cell classification chain used in the COMMAND and DATA states:
Zero when the low period dominates the cell, One when the high period
dominates, Malformed otherwise. -/
def classify_bit (bit_low bit_high : ℚ) : BitClass :=
  let bit_cell := bit_low + bit_high
  if bit_low / bit_cell > 0.6 then .Zero
  else if bit_high / bit_cell > 0.6 then .One
  else .Malformed

/-- The string-keyed states of the decode state machine. -/
inductive MState where
  | ATTENTION | SYNC | COMMAND | STOP_CMD | TLT | START_DATA | DATA | STOP_DATA
deriving DecidableEq

/-- The mutable fields of the Decoder instance used by decode, plus the
decode-local command-label variable (cmdLabel). -/
structure DState where
  state : MState
  bit : ℕ
  bit_count : ℕ
  address : ℕ
  command : ℕ
  reg : ℕ
  data_word : ℕ
  fall : ℕ
  rise : ℕ
  tstart : ℕ
  samplenum : ℕ
  sample_addr_start : ℕ
  sample_cmd_start : ℕ
  sample_reg_start : ℕ
  sample_data_start : ℕ
  done : Bool
  cmdLabel : Option (List String)
deriving DecidableEq

/-- The state at entry to decode, from Decoder.reset / Decoder.start.
(reset writes -1 into bit_count, but the first action of the ATTENTION
state overwrites it with 0 before any read, so 0 is used here.) -/
def initState : DState :=
  { state := .ATTENTION, bit := 0, bit_count := 0, address := 0, command := 0,
    reg := 0, data_word := 0, fall := 0, rise := 0, tstart := 0, samplenum := 0,
    sample_addr_start := 0, sample_cmd_start := 0, sample_reg_start := 0,
    sample_data_start := 0, done := false, cmdLabel := none }

/-- Interval between two sample indices in microseconds:
((b - a) / samplerate) * 1000000. -/
def interval (a b : ℕ) (sr : ℚ) : ℚ := (((b : ℚ) - (a : ℚ)) / sr) * 1000000

/-- Decoder.checks: samplerate advisories, emitted with put(0, 0, ...)
and annotation class index 1. -/
def checks (sr : ℚ) : List Ann :=
  if sr < 400000 then
    [⟨0, 0, 1,
      ["Sampling rate is too low. Must be above 400kHz for proper normal mode decoding."]⟩]
  else if sr < 1000000 then
    [⟨0, 0, 1,
      ["Sampling rate is suggested to be above 1MHz for proper normal mode decoding."]⟩]
  else []

/-- The exceptions decode can surface to its caller. -/
inductive DecodeErr where
  | samplerateError
  | unboundLocalError
deriving DecidableEq

/-- Result of one pass through the body of the decode while-True loop. -/
inductive Outcome where
  | next (st : DState) (es : List Edge)  -- loop again
  | eos                                  -- capture exhausted inside a wait
  | exn                                  -- unhandled Python exception raised
deriving DecidableEq

/-- Assignment of the decode-local command-label variable at bit_count 6 of
the COMMAND loop: values 0, 2 and 3 bind the label texts; any other value
leaves the variable as it was (unbound on the first transaction). -/
def commandLabel (v : ℕ) (old : Option (List String)) : Option (List String) :=
  match v with
  | 0 => some ["Flush", "Flsh", "Fl", "F"]
  | 2 => some ["Listen", "Lst", "L"]
  | 3 => some ["Talk", "Tlk", "T"]
  | _ => old

/-- The field-accumulation chain of the COMMAND loop (address bits shift in
before the counter increments): bits 0-3 address, 4-5 command, 6-7 register. -/
def accumStep (st : DState) : DState :=
  if st.bit_count < 4 then
    { st with address := st.address + (st.bit <<< (3 - st.bit_count)) }
  else if st.bit_count < 6 then
    { st with command := st.command + (st.bit <<< (5 - st.bit_count)) }
  else if st.bit_count < 8 then
    { st with reg := st.reg + (st.bit <<< (7 - st.bit_count)) }
  else st

/-- The data-word accumulation of the DATA loop (the counter has already
been incremented when this runs on a well-formed cell; on a malformed cell
it runs with the stale bit and stale counter). -/
def dataAccum (dw bit bc : ℕ) : ℕ := dw + (bit <<< (16 - bc))

/-- The while bit_count < 8 loop of the COMMAND state.  On a malformed
cell the Python code assigns state ATTENTION but neither breaks the loop
nor skips the accumulation, so this function does the same.  Emitting the
command label while the label variable is unbound raises.
fuel only bounds the recursion so that it is structural: every iteration
consumes at least two edges and the loop body runs at most nine times, so
the fuel supplied by the caller (number of edges plus one) is never
exhausted before the loop finishes or the capture ends. -/
def cmdLoop (opt : TolOpt) (sr : ℚ) :
    ℕ → ℕ → DState → List Edge → List Ann × Outcome
  | 0, _, _, _ => ([], .eos)
  | fuel + 1, annId, st, es =>
  if st.bit_count < 8 then
    -- field-boundary bookkeeping at the top of the loop body
    let annId := if st.bit_count = 0 then 5
      else if st.bit_count = 4 then 6
      else if st.bit_count = 6 then 7
      else annId
    let st :=
      if st.bit_count = 0 then { st with sample_addr_start := st.samplenum }
      else if st.bit_count = 4 then { st with sample_cmd_start := st.samplenum }
      else if st.bit_count = 6 then
        { st with sample_reg_start := st.samplenum,
                  cmdLabel := commandLabel st.command st.cmdLabel }
      else st
    if st.bit_count = 6 ∧ st.cmdLabel = none then
      -- put of the command annotation raises UnboundLocalError
      ([], .exn)
    else
      let bndAnns : List Ann :=
        if st.bit_count = 4 then
          [⟨st.sample_addr_start, st.samplenum, 12, ["Address: " ++ pyHex st.address]⟩]
        else if st.bit_count = 6 then
          [⟨st.sample_cmd_start, st.samplenum, 11, st.cmdLabel.getD []⟩]
        else []
      -- one bit cell: falling, rising, falling
      let bit_start := st.samplenum
      let st := { st with fall := st.samplenum }
      match waitDir .r es with
      | none => (bndAnns, .eos)
      | some (tr, es1) =>
        let bit_mid := tr
        let st := { st with rise := tr, samplenum := tr }
        match waitDir .f es1 with
        | none => (bndAnns, .eos)
        | some (tf, es2) =>
          let bit_end := tf
          let st := { st with samplenum := tf }
          let bit_low := interval bit_start bit_mid sr
          let bit_high := interval bit_mid bit_end sr
          let cellRes : List Ann × DState :=
            match classify_bit bit_low bit_high with
            | .Zero =>
              let st := { st with bit := 0 }
              ([⟨st.fall, st.samplenum, annId, [toString st.bit]⟩], st)
            | .One =>
              let st := { st with bit := 1 }
              ([⟨st.fall, st.samplenum, annId, [toString st.bit]⟩], st)
            | .Malformed => ([], { st with state := .ATTENTION })
          let st := { cellRes.2 with fall := cellRes.2.samplenum }
          let st := accumStep st
          let st := { st with bit_count := st.bit_count + 1 }
          let rest := cmdLoop opt sr fuel annId st es2
          (bndAnns ++ cellRes.1 ++ rest.1, rest.2)
  else
    ([⟨st.sample_reg_start, st.samplenum, 13, ["Register: " ++ pyHex st.reg]⟩],
      .next { st with state := .STOP_CMD } es)

/-- The while bit_count < 16 loop of the DATA state.  On a malformed cell
the Python code assigns state ATTENTION but neither breaks nor increments
the counter, and still runs the accumulation with the stale bit; this
function does the same.  fuel only makes the recursion structural; the
caller supplies the number of edges plus one, which is never exhausted
because every iteration consumes at least two edges. -/
def dataLoop (opt : TolOpt) (sr : ℚ) :
    ℕ → DState → List Edge → List Ann × Outcome
  | 0, _, _ => ([], .eos)
  | fuel + 1, st, es =>
  if st.bit_count < 16 then
    let bit_start := st.samplenum
    let st := { st with fall := st.samplenum }
    match waitDir .r es with
    | none => ([], .eos)
    | some (tr, es1) =>
      let bit_mid := tr
      let st := { st with rise := tr, samplenum := tr }
      match waitDir .f es1 with
      | none => ([], .eos)
      | some (tf, es2) =>
        let bit_end := tf
        let st := { st with samplenum := tf }
        let bit_low := interval bit_start bit_mid sr
        let bit_high := interval bit_mid bit_end sr
        let cellRes : List Ann × DState :=
          match classify_bit bit_low bit_high with
          | .Zero =>
            let st := { st with bit := 0, bit_count := st.bit_count + 1 }
            ([⟨st.fall, st.samplenum, 8, [toString st.bit]⟩], st)
          | .One =>
            let st := { st with bit := 1, bit_count := st.bit_count + 1 }
            ([⟨st.fall, st.samplenum, 8, [toString st.bit]⟩], st)
          | .Malformed => ([], { st with state := .ATTENTION })
        let st := cellRes.2
        let st := { st with data_word := dataAccum st.data_word st.bit st.bit_count }
        let st := { st with fall := st.samplenum }
        let rest := dataLoop opt sr fuel st es2
        (cellRes.1 ++ rest.1, rest.2)
  else
    ([⟨st.sample_data_start, st.samplenum, 14, ["Data: 0x" ++ pyHex04 st.data_word]⟩],
      .next { st with state := .STOP_DATA } es)

/-- One pass through the body of the decode while-True loop, dispatching on
the current state exactly as the if/elif chain in decode does. -/
def step (opt : TolOpt) (sr : ℚ) (st : DState) (es : List Edge) : List Ann × Outcome :=
  match st.state with
  | .ATTENTION =>
    let st := { st with address := 0, command := 0, reg := 0, data_word := 0,
                        bit_count := 0 }
    let afterFall : Option (DState × List Edge) :=
      if st.done = false then
        match waitDir .f es with
        | none => none
        | some (tf, es1) => some ({ st with fall := tf, samplenum := tf }, es1)
      else some (st, es)
    match afterFall with
    | none => ([], .eos)
    | some (st, es) =>
      match waitDir .r es with
      | none => ([], .eos)
      | some (tr, es1) =>
        let st := { st with rise := tr, samplenum := tr }
        let time := interval st.fall st.rise sr
        if time ≥ timing .ATTENTION - timingTol .ATTENTION then
          ([⟨st.fall, st.samplenum, 1, ["Bus Attention", "Attention", "ATTN", "A"]⟩],
            .next { st with state := .SYNC, tstart := st.samplenum, done := false } es1)
        else
          ([], .next { st with done := false } es1)
  | .SYNC =>
    match waitDir .f es with
    | none => ([], .eos)
    | some (tf, es1) =>
      let st := { st with fall := tf, samplenum := tf }
      let time := interval st.rise st.fall sr
      if check_tolerance opt time .SYNC then
        ([⟨st.rise, st.samplenum, 2, ["Sync", "SS"]⟩],
          .next { st with state := .COMMAND } es1)
      else
        ([], .next { st with state := .ATTENTION } es1)
  | .COMMAND => cmdLoop opt sr (es.length + 1) 0 { st with bit_count := 0 } es
  | .STOP_CMD =>
    match waitDir .r es with
    | none => ([], .eos)
    | some (tr, es1) =>
      let st := { st with rise := tr, samplenum := tr }
      let time := interval st.fall st.rise sr
      if check_tolerance opt time .STOP then
        ([⟨st.fall, st.samplenum, 4, ["STOP", "ST"]⟩],
          .next { st with state := .TLT } es1)
      else if check_tolerance opt time .STOP_SREQ then
        ([⟨st.fall, st.samplenum, 10, ["Service Request", "SREQ", "SR"]⟩],
          .next { st with state := .TLT } es1)
      else
        ([], .next { st with state := .ATTENTION } es1)
  | .TLT =>
    match waitDir .f es with
    | none => ([], .eos)
    | some (tf, es1) =>
      let st := { st with fall := tf, samplenum := tf }
      let time := interval st.rise st.fall sr
      if check_tolerance opt time .TLT then
        ([⟨st.rise, st.samplenum, 9, ["Stop-to-Start", "TLT"]⟩],
          .next { st with state := .START_DATA } es1)
      else
        ([], .next { st with state := .ATTENTION, done := true } es1)
  | .START_DATA =>
    let bit_start := st.samplenum
    let st := { st with fall := st.samplenum }
    match waitDir .r es with
    | none => ([], .eos)
    | some (tr, es1) =>
      let bit_mid := tr
      let st := { st with rise := tr, samplenum := tr }
      match waitDir .f es1 with
      | none => ([], .eos)
      | some (tf, es2) =>
        let bit_end := tf
        let st := { st with samplenum := tf }
        let bit_low := interval bit_start bit_mid sr
        let bit_high := interval bit_mid bit_end sr
        let bit_cell := bit_low + bit_high
        if bit_high / bit_cell > 0.6 then
          ([⟨st.fall, st.samplenum, 3, ["Start", "St"]⟩],
            .next { st with state := .DATA, fall := st.samplenum } es2)
        else
          ([], .next { st with state := .ATTENTION, fall := st.samplenum } es2)
  | .DATA =>
    dataLoop opt sr (es.length + 1)
      { st with bit_count := 0, sample_data_start := st.samplenum } es
  | .STOP_DATA =>
    match waitDir .r es with
    | none => ([], .eos)
    | some (tr, es1) =>
      let st := { st with rise := tr, samplenum := tr }
      let time := interval st.fall st.rise sr
      let anns : List Ann :=
        if check_tolerance opt time .STOP then
          [⟨st.fall, st.samplenum, 4, ["STOP", "ST"]⟩]
        else if check_tolerance opt time .STOP_SREQ then
          [⟨st.fall, st.samplenum, 10, ["Service Request", "SREQ", "SR"]⟩]
        else []
      (anns, .next { st with state := .ATTENTION } es1)

/-- The decode while-True loop.  fuel bounds the number of iterations; each
iteration that continues consumes at least one edge, so the fuel supplied by
decode (number of edges plus one) is never exhausted before the capture is. -/
def run (opt : TolOpt) (sr : ℚ) : ℕ → DState → List Edge → List Ann × Option DecodeErr
  | 0, _, _ => ([], none)
  | fuel + 1, st, es =>
    match step opt sr st es with
    | (anns, .next st' es') =>
      let rest := run opt sr fuel st' es'
      (anns ++ rest.1, rest.2)
    | (anns, .eos) => (anns, none)
    | (anns, .exn) => (anns, some .unboundLocalError)

/-- Decoder.decode on a finite capture: the samplerate guard (Python
falsiness: absent or zero), then checks(), then the state-machine loop.
The result is the emitted annotations in order together with the exception
surfaced to the caller, if any. -/
def decode (opt : TolOpt) (samplerate : Option ℚ) (es : List Edge) :
    List Ann × Option DecodeErr :=
  match samplerate with
  | none => ([], some .samplerateError)
  | some sr =>
    if sr = 0 then ([], some .samplerateError)
    else
      let warn := checks sr
      let rest := run opt sr (es.length + 1) initState es
      (warn ++ rest.1, rest.2)

/-- The annotation classes declared by the decoder, in declaration order
(index is the annotation class number used in put). -/
def annClasses : List (String × String) :=
  [("reset", "Bus reset"), ("attention", "Attention condition"),
    ("sync", "Sync condition"), ("start", "Start bit"), ("stop", "Stop bit"),
    ("addr", "Address bit"), ("cmd", "Command bit"), ("reg", "Register bit"),
    ("dat", "Data bit"), ("tlt", "Stop-bit-to-start-bit delay"),
    ("srq", "Service request"), ("command", "Command"),
    ("address", "Device address"), ("register", "Register"),
    ("data", "Data"), ("warning", "Warning")]

/-- The display rows declared by the decoder and the annotation class
indices they contain. -/
def annRows : List (String × List ℕ) :=
  [("bus", [0, 1, 2, 3, 4, 5, 6, 7, 8, 9, 10]),
    ("transactions", [11, 12, 13, 14]),
    ("warnings", [15])]

/-!  Capture generators.  All streams below are laid out at a samplerate of
1 MHz, so one sample is exactly one microsecond and all nominal timings are
hit exactly.  A bit cell is 100 us: a zero cell is low for 65 us, a one
cell is low for 35 us. -/

/-- Low duration in microseconds of a well-formed bit cell encoding b. -/
def lowDur (b : Bool) : ℕ := if b then 35 else 65

/-- Edges of one well-formed bit cell starting at the falling edge already
consumed at sample t: the rising edge after the low phase and the falling
edge closing the cell. -/
def cellEdges (t : ℕ) (b : Bool) : List Edge :=
  [⟨.r, t + lowDur b⟩, ⟨.f, t + 100⟩]

/-- Edges of a run of consecutive well-formed bit cells starting at t. -/
def cellsEdges : ℕ → List Bool → List Edge
  | _, [] => []
  | t, b :: bs => cellEdges t b ++ cellsEdges (t + 100) bs

/-- Edges of one malformed bit cell starting at t: low and high halves of
exactly 50 us each, so neither ratio exceeds 0.6. -/
def malCellEdges (t : ℕ) : List Edge := [⟨.r, t + 50⟩, ⟨.f, t + 100⟩]

/-- A capture holding one fully valid transaction at nominal timings:
attention 800 us, sync 65 us, the 8 command bit cells cb, stop 70 us,
TLT 200 us, a start bit (a one cell), the 16 data bit cells db, stop 70 us.
Intended for cb of length 8 and db of length 16. -/
def validStream (cb db : List Bool) : List Edge :=
  [⟨.f, 0⟩, ⟨.r, 800⟩, ⟨.f, 865⟩] ++ cellsEdges 865 cb
    ++ [⟨.r, 1735⟩, ⟨.f, 1935⟩] ++ cellEdges 1935 true
    ++ cellsEdges 2035 db ++ [⟨.r, 3705⟩]

/-- MSB-first value of a list of bits. -/
def msbVal (bs : List Bool) : ℕ :=
  bs.foldl (fun a b => 2 * a + (if b then 1 else 0)) 0

/-- Whether an annotation is one of the per-bit annotations (address bit,
command bit, register bit, data bit). -/
def isBitAnn (a : Ann) : Bool :=
  a.cls == 5 || a.cls == 6 || a.cls == 7 || a.cls == 8

/-- Feeding a list of bits through the COMMAND-loop accumulation chain:
for each bit, set the bit field as the classifier would, run accumStep,
then increment the counter (shift before increment, as in the source). -/
def cmdFeed : DState → List Bool → DState
  | st, [] => st
  | st, b :: bs =>
    let st := { st with bit := if b then 1 else 0 }
    let st := accumStep st
    cmdFeed { st with bit_count := st.bit_count + 1 } bs

/-- Feeding a list of bits through the DATA-loop accumulation: for each
bit, set the bit field and increment the counter, then run the data-word
accumulation (increment before shift, as in the source). -/
def dataFeed : DState → List Bool → DState
  | st, [] => st
  | st, b :: bs =>
    let st := { st with bit := if b then 1 else 0, bit_count := st.bit_count + 1 }
    dataFeed { st with data_word := dataAccum st.data_word st.bit st.bit_count } bs

/-- The per-bit annotations the DATA loop emits over a run of well-formed
cells starting at t. -/
def dataBitAnns : ℕ → List Bool → List Ann
  | _, [] => []
  | t, b :: bs =>
    ⟨t, t + 100, 8, [toString (if b then (1 : ℕ) else 0)]⟩ :: dataBitAnns (t + 100) bs

/-- The value of the decoder's bit field after a run of well-formed cells. -/
def lastBit (bit : ℕ) : List Bool → ℕ
  | [] => bit
  | b :: bs => lastBit (if b then 1 else 0) bs

/-- The value of the decoder's rise field after a run of well-formed cells
starting at t. -/
def lastRise (r t : ℕ) : List Bool → ℕ
  | [] => r
  | b :: bs => lastRise (t + lowDur b) (t + 100) bs

/-- Capture for claim C1: valid attention and sync, then the first of the
8 command bit cells malformed (50/50) and the remaining 7 well-formed
zeros, then a stop of 70 us. -/
def c1Stream : List Edge :=
  [⟨.f, 0⟩, ⟨.r, 800⟩, ⟨.f, 865⟩] ++ malCellEdges 865
    ++ cellsEdges 965 (List.replicate 7 false) ++ [⟨.r, 1735⟩]

/-- Capture for claim C2: a valid transaction prefix (command 0x0, all
zero bits), then 9 well-formed data cells (eight zeros and a one), the
10th data cell malformed (50/50), then 7 more well-formed zero cells and
a stop of 70 us. -/
def c2Stream : List Edge :=
  [⟨.f, 0⟩, ⟨.r, 800⟩, ⟨.f, 865⟩] ++ cellsEdges 865 (List.replicate 8 false)
    ++ [⟨.r, 1735⟩, ⟨.f, 1935⟩] ++ cellEdges 1935 true
    ++ cellsEdges 2035 (List.replicate 8 false ++ [true])
    ++ malCellEdges 2935
    ++ cellsEdges 3035 (List.replicate 7 false) ++ [⟨.r, 3805⟩]

/-- Capture for claims C3/C5: a fully valid transaction whose 2-bit
command value is 1 (bits 01). -/
def cmd1Stream : List Edge :=
  validStream [false, false, false, false, false, true, false, false]
    (List.replicate 16 false)

/-- Capture for claim C7: an attention pulse followed by a sync interval
of 62 us (below the strict window), then a second, longer low pulse that
the restarted attention search accepts. -/
def syncBadStream : List Edge :=
  [⟨.f, 0⟩, ⟨.r, 800⟩, ⟨.f, 862⟩, ⟨.r, 900⟩, ⟨.f, 1000⟩, ⟨.r, 1900⟩]

end ADB

namespace ADB

/-- toString on the numeric literal zero. -/
theorem tsZero : toString (0 : ℕ) = "0" := rfl

/-- toString on the numeric literal one. -/
theorem tsOne : toString (1 : ℕ) = "1" := rfl

/-- A bound command label is never the unbound marker. -/
theorem someLabel_ne (x : List String) :
    (some x = (none : Option (List String))) = False := by simp

/-- The two edge directions are distinct (wait-condition mismatch case). -/
theorem dir_rf : Dir.r ≠ Dir.f := by decide

/-- The two edge directions are distinct (wait-condition mismatch case). -/
theorem dir_fr : Dir.f ≠ Dir.r := by decide

/-- Unfolding of the decode loop for positive fuel. -/
theorem run_step (opt : TolOpt) (sr : ℚ) (fuel : ℕ) (st : DState) (es : List Edge)
    (hf : fuel ≠ 0) :
    run opt sr fuel st es =
      match step opt sr st es with
      | (anns, .next st' es') =>
        let rest := run opt sr (fuel - 1) st' es'
        (anns ++ rest.1, rest.2)
      | (anns, .eos) => (anns, none)
      | (anns, .exn) => (anns, some .unboundLocalError) := by
  cases fuel with
  | zero => exact absurd rfl hf
  | succ n => rfl

/-- The ATTENTION state on a fresh falling/rising edge pair: the attention
event is emitted and the machine moves to SYNC precisely when the measured
width is at least nominal minus tolerance; there is no upper bound and the
tolerance profile is not consulted. -/
theorem attention_step (opt : TolOpt) (sr : ℚ) (st : DState) (a c : ℕ) (es : List Edge)
    (hst : st.state = .ATTENTION) (hd : st.done = false) :
    step opt sr st (⟨.f, a⟩ :: ⟨.r, c⟩ :: es) =
      if timing .ATTENTION - timingTol .ATTENTION ≤ interval a c sr then
        ([⟨a, c, 1, ["Bus Attention", "Attention", "ATTN", "A"]⟩],
          .next { st with state := .SYNC, address := 0, command := 0, reg := 0,
                          data_word := 0, bit_count := 0, fall := a, rise := c,
                          samplenum := c, tstart := c, done := false } es)
      else
        ([], .next { st with address := 0, command := 0, reg := 0, data_word := 0,
                             bit_count := 0, fall := a, rise := c, samplenum := c,
                             done := false } es) := by
  simp only [step, hst, hd, waitDir, ge_iff_le]
  rfl

end ADB

namespace ADB

/-- The SYNC state on the next falling edge. -/
theorem sync_step (opt : TolOpt) (sr : ℚ) (st : DState) (c : ℕ) (es : List Edge)
    (hst : st.state = .SYNC) :
    step opt sr st (⟨.f, c⟩ :: es) =
      if check_tolerance opt (interval st.rise c sr) .SYNC then
        ([⟨st.rise, c, 2, ["Sync", "SS"]⟩],
          .next { st with state := .COMMAND, fall := c, samplenum := c } es)
      else
        ([], .next { st with state := .ATTENTION, fall := c, samplenum := c } es) := by
  simp only [step, hst, waitDir]
  rfl

/-- The COMMAND state hands over to the command-bit loop. -/
theorem command_step (opt : TolOpt) (sr : ℚ) (st : DState) (es : List Edge)
    (hst : st.state = .COMMAND) :
    step opt sr st es =
      cmdLoop opt sr (es.length + 1) 0 { st with bit_count := 0 } es := by
  simp only [step, hst]

/-- The STOP_CMD state on the next rising edge. -/
theorem stop_cmd_step (opt : TolOpt) (sr : ℚ) (st : DState) (c : ℕ) (es : List Edge)
    (hst : st.state = .STOP_CMD) :
    step opt sr st (⟨.r, c⟩ :: es) =
      if check_tolerance opt (interval st.fall c sr) .STOP then
        ([⟨st.fall, c, 4, ["STOP", "ST"]⟩],
          .next { st with state := .TLT, rise := c, samplenum := c } es)
      else if check_tolerance opt (interval st.fall c sr) .STOP_SREQ then
        ([⟨st.fall, c, 10, ["Service Request", "SREQ", "SR"]⟩],
          .next { st with state := .TLT, rise := c, samplenum := c } es)
      else
        ([], .next { st with state := .ATTENTION, rise := c, samplenum := c } es) := by
  simp only [step, hst, waitDir]
  rfl

/-- The TLT state on the next falling edge. -/
theorem tlt_step (opt : TolOpt) (sr : ℚ) (st : DState) (c : ℕ) (es : List Edge)
    (hst : st.state = .TLT) :
    step opt sr st (⟨.f, c⟩ :: es) =
      if check_tolerance opt (interval st.rise c sr) .TLT then
        ([⟨st.rise, c, 9, ["Stop-to-Start", "TLT"]⟩],
          .next { st with state := .START_DATA, fall := c, samplenum := c } es)
      else
        ([], .next { st with state := .ATTENTION, fall := c, samplenum := c,
                             done := true } es) := by
  simp only [step, hst, waitDir]
  rfl

/-- The START_DATA state on one bit cell. -/
theorem start_data_step (opt : TolOpt) (sr : ℚ) (st : DState) (tr tf : ℕ) (es : List Edge)
    (hst : st.state = .START_DATA) :
    step opt sr st (⟨.r, tr⟩ :: ⟨.f, tf⟩ :: es) =
      if interval tr tf sr / (interval st.samplenum tr sr + interval tr tf sr) > 0.6 then
        ([⟨st.samplenum, tf, 3, ["Start", "St"]⟩],
          .next { st with state := .DATA, rise := tr, samplenum := tf, fall := tf } es)
      else
        ([], .next { st with state := .ATTENTION, rise := tr, samplenum := tf,
                             fall := tf } es) := by
  simp only [step, hst, waitDir]
  rfl

/-- The DATA state hands over to the data-bit loop. -/
theorem data_step (opt : TolOpt) (sr : ℚ) (st : DState) (es : List Edge)
    (hst : st.state = .DATA) :
    step opt sr st es =
      dataLoop opt sr (es.length + 1)
        { st with bit_count := 0, sample_data_start := st.samplenum } es := by
  simp only [step, hst]

/-- The STOP_DATA state on the next rising edge. -/
theorem stop_data_step (opt : TolOpt) (sr : ℚ) (st : DState) (c : ℕ) (es : List Edge)
    (hst : st.state = .STOP_DATA) :
    step opt sr st (⟨.r, c⟩ :: es) =
      ((if check_tolerance opt (interval st.fall c sr) .STOP then
          [⟨st.fall, c, 4, ["STOP", "ST"]⟩]
        else if check_tolerance opt (interval st.fall c sr) .STOP_SREQ then
          [⟨st.fall, c, 10, ["Service Request", "SREQ", "SR"]⟩]
        else []),
        .next { st with state := .ATTENTION, rise := c, samplenum := c } es) := by
  simp only [step, hst, waitDir]
  rfl

/-- The ATTENTION state on an exhausted capture ends the decode. -/
theorem attention_eos (opt : TolOpt) (sr : ℚ) (st : DState)
    (hst : st.state = .ATTENTION) (hd : st.done = false) :
    step opt sr st [] = ([], .eos) := by
  simp only [step, hst, hd, waitDir, if_true]

end ADB

namespace ADB

/-- Folding the MSB-first accumulator from an arbitrary start value. -/
theorem msbVal_foldl (bs : List Bool) : ∀ a : ℕ,
    bs.foldl (fun x b => 2 * x + (if b then 1 else 0)) a =
      a * 2 ^ bs.length + msbVal bs := by
  induction bs with
  | nil => intro a; simp [msbVal]
  | cons b bs ih =>
    intro a
    have h1 := ih (2 * a + (if b then 1 else 0))
    have h2 := ih (2 * 0 + (if b then 1 else 0))
    simp only [msbVal, List.foldl_cons, List.length_cons]
    rw [h1, h2]
    ring

/-- MSB-first value of a list with its head split off. -/
theorem msbVal_cons (b : Bool) (bs : List Bool) :
    msbVal (b :: bs) = (if b then 1 else 0) * 2 ^ bs.length + msbVal bs := by
  simp only [msbVal, List.foldl_cons]
  rw [show (2 * 0 + (if b then 1 else 0)) = (if b then 1 else 0) by ring]
  exact msbVal_foldl bs _

/-- A run of n well-formed cells contributes 2n edges. -/
theorem cellsEdges_length : ∀ (t : ℕ) (bs : List Bool),
    (cellsEdges t bs).length = 2 * bs.length := by
  intro t bs
  induction bs generalizing t with
  | nil => simp [cellsEdges]
  | cons b bs ih => simp [cellsEdges, cellEdges, ih]; ring

/-- Per-bit data annotations all belong to the bit-annotation classes. -/
theorem dataBitAnns_filter : ∀ (t : ℕ) (bs : List Bool),
    (dataBitAnns t bs).filter (fun a => !isBitAnn a) = [] := by
  intro t bs
  induction bs generalizing t with
  | nil => simp [dataBitAnns]
  | cons b bs ih =>
    simpa [dataBitAnns, List.filter_cons, isBitAnn] using ih (t + 100)

end ADB

namespace ADB

/-- One well-formed bit cell processed by the COMMAND loop, phrased over
the generated 1 MHz cell layout starting at sample t. -/
theorem cmdLoop_cell (opt : TolOpt) (fuel annId : ℕ) (st : DState) (b : Bool)
    (t : ℕ) (es : List Edge)
    (hf : fuel ≠ 0)
    (hsam : st.samplenum = t)
    (h8 : st.bit_count < 8)
    (hno : ¬(st.bit_count = 6 ∧ commandLabel st.command st.cmdLabel = none)) :
    cmdLoop opt 1000000 fuel annId st (⟨.r, t + lowDur b⟩ :: ⟨.f, t + 100⟩ :: es) =
      (let annId2 := if st.bit_count = 0 then 5 else if st.bit_count = 4 then 6
          else if st.bit_count = 6 then 7 else annId
        let bnd : List Ann :=
          if st.bit_count = 4 then
            [⟨st.sample_addr_start, t, 12, ["Address: " ++ pyHex st.address]⟩]
          else if st.bit_count = 6 then
            [⟨st.sample_cmd_start, t, 11,
              (commandLabel st.command st.cmdLabel).getD []⟩]
          else []
        let st1 :=
          if st.bit_count = 0 then { st with sample_addr_start := t }
          else if st.bit_count = 4 then { st with sample_cmd_start := t }
          else if st.bit_count = 6 then
            { st with sample_reg_start := t,
                      cmdLabel := commandLabel st.command st.cmdLabel }
          else st
        let bv : ℕ := if b then 1 else 0
        let st2 := accumStep { st1 with bit := bv, fall := t + 100,
                                        rise := t + lowDur b, samplenum := t + 100 }
        let rest := cmdLoop opt 1000000 (fuel - 1) annId2
          { st2 with bit_count := st2.bit_count + 1 } es
        (bnd ++ ⟨t, t + 100, annId2, [toString bv]⟩ :: rest.1, rest.2)) := by
  subst hsam
  cases fuel with
  | zero => exact absurd rfl hf
  | succ n =>
    by_cases h0 : st.bit_count = 0
    · cases b <;>
        · simp only [cmdLoop, h8, if_pos, if_true, h0, waitDir, lowDur]
          norm_num [interval, classify_bit, accumStep, h0]
    · by_cases h4 : st.bit_count = 4
      · cases b <;>
          · simp only [cmdLoop, h8, if_pos, if_true, h4, waitDir, lowDur]
            norm_num [interval, classify_bit, accumStep, h4]
      · by_cases h6 : st.bit_count = 6
        · have hlbl : ¬(commandLabel st.command st.cmdLabel = none) :=
            fun hc => hno ⟨h6, hc⟩
          cases b <;>
            · simp only [cmdLoop, h8, if_pos, if_true, h6, waitDir, lowDur]
              norm_num [interval, classify_bit, accumStep, h6, hlbl]
        · cases b <;>
            · simp only [cmdLoop, h8, if_pos, if_true, h0, h4, h6, waitDir, lowDur]
              norm_num [interval, classify_bit, accumStep, h0, h4, h6]

/-- The COMMAND loop once all eight bits have been consumed: emit the
register annotation and move to STOP_CMD. -/
theorem cmdLoop_done (opt : TolOpt) (sr : ℚ) (fuel annId : ℕ) (st : DState)
    (es : List Edge) (hf : fuel ≠ 0) (h8 : ¬st.bit_count < 8) :
    cmdLoop opt sr fuel annId st es =
      ([⟨st.sample_reg_start, st.samplenum, 13, ["Register: " ++ pyHex st.reg]⟩],
        .next { st with state := .STOP_CMD } es) := by
  cases fuel with
  | zero => exact absurd rfl hf
  | succ n => simp only [cmdLoop, h8, if_false]

/-- The DATA loop over a run of well-formed cells that exactly exhausts the
sixteen data bits: every bit annotation is emitted, the data annotation
carries the MSB-first value, and the machine moves to STOP_DATA. -/
theorem dataLoop_cells (opt : TolOpt) :
    ∀ (bs : List Bool) (fuel : ℕ) (st : DState) (es : List Edge),
      st.bit_count + bs.length = 16 →
      st.fall = st.samplenum →
      bs.length < fuel →
      dataLoop opt 1000000 fuel st (cellsEdges st.samplenum bs ++ es) =
        (dataBitAnns st.samplenum bs ++
          [⟨st.sample_data_start, st.samplenum + 100 * bs.length, 14,
            ["Data: 0x" ++ pyHex04 (st.data_word + msbVal bs)]⟩],
          .next { st with state := .STOP_DATA, bit := lastBit st.bit bs,
                          bit_count := 16,
                          rise := lastRise st.rise st.samplenum bs,
                          data_word := st.data_word + msbVal bs,
                          fall := st.samplenum + 100 * bs.length,
                          samplenum := st.samplenum + 100 * bs.length } es) := by
  intro bs
  induction bs with
  | nil =>
    intro fuel st es hbc hfall hflt
    cases fuel with
    | zero => simp at hflt
    | succ n =>
      have hbc16 : st.bit_count = 16 := by simpa using hbc
      have h16 : ¬st.bit_count < 16 := by omega
      obtain ⟨s, bit, bc, ad, cm, rg, dw, fl, rs, ts, sn, sas, scs, srs, sds, dn, lbl⟩ := st
      simp only at hbc16 hfall
      subst hbc16 hfall
      simp [dataLoop, dataBitAnns, msbVal, lastBit, lastRise, cellsEdges]
  | cons b bs ih =>
    intro fuel st es hbc hfall hflt
    cases fuel with
    | zero => simp at hflt
    | succ n =>
      have h16 : st.bit_count < 16 := by simp at hbc; omega
      have hn : bs.length < n := by simpa using hflt
      have e1 : 16 - (st.bit_count + 1) = bs.length := by simp at hbc; omega
      cases b with
      | false =>
        have key := ih n
          { st with bit := 0, bit_count := st.bit_count + 1,
                    rise := st.samplenum + 65, samplenum := st.samplenum + 100,
                    fall := st.samplenum + 100 }
          es (by simp; omega) (by simp) hn
        simp only at key
        simp only [cellsEdges, cellEdges, lowDur, List.cons_append, List.nil_append,
          Bool.false_eq_true, if_false] at *
        simp only [dataLoop, h16, if_pos, waitDir]
        norm_num [interval, classify_bit, dataAccum]
        rw [key]
        simp [dataBitAnns, lastBit, lastRise, lowDur, msbVal_cons, Nat.mul_succ,
          Nat.add_assoc, Nat.add_comm, Nat.add_left_comm]
      | true =>
        have key := ih n
          { st with bit := 1, bit_count := st.bit_count + 1,
                    rise := st.samplenum + 35, samplenum := st.samplenum + 100,
                    fall := st.samplenum + 100,
                    data_word := st.data_word + (1 <<< (16 - (st.bit_count + 1))) }
          es (by simp; omega) (by simp) hn
        simp only at key
        simp only [cellsEdges, cellEdges, lowDur, List.cons_append, List.nil_append,
          if_true] at *
        simp only [dataLoop, h16, if_pos, waitDir]
        norm_num [interval, classify_bit, dataAccum]
        rw [key]
        simp [dataBitAnns, lastBit, lastRise, lowDur, msbVal_cons, e1, Nat.shiftLeft_eq,
          Nat.mul_succ, Nat.add_assoc, Nat.add_comm, Nat.add_left_comm]

end ADB

namespace ADB

/-- Data-word accumulation over a list of bits from any starting point. -/
theorem dataFeed_data_word : ∀ (bs : List Bool) (st : DState),
    st.bit_count + bs.length ≤ 16 →
    (dataFeed st bs).data_word =
      st.data_word + msbVal bs * 2 ^ (16 - st.bit_count - bs.length) := by
  intro bs
  induction bs with
  | nil => intro st h; simp [dataFeed, msbVal]
  | cons b bs ih =>
    intro st h
    have hle : st.bit_count + 1 + bs.length ≤ 16 := by simp at h; omega
    have e1 : 16 - (st.bit_count + 1) - bs.length = 16 - st.bit_count - (bs.length + 1) := by
      omega
    have e2 : 16 - (st.bit_count + 1) =
        (16 - st.bit_count - (bs.length + 1)) + bs.length := by omega
    have key := ih
      { st with bit := (if b then 1 else 0),
                bit_count := st.bit_count + 1,
                data_word := st.data_word +
                  (if b then 1 else 0) <<< (16 - (st.bit_count + 1)) }
      (by simp; omega)
    simp only at key
    simp only [dataFeed, dataAccum]
    rw [key, msbVal_cons]
    simp only [List.length_cons, e1, e2, Nat.shiftLeft_eq, pow_add]
    ring_nf
    simp [Nat.add_sub_cancel_left]

end ADB

namespace ADB

end ADB

namespace ADB

end ADB

namespace ADB

/-- One well-formed bit cell processed by the DATA loop. -/
theorem dataLoop_cell (opt : TolOpt) (fuel : ℕ) (st : DState) (b : Bool)
    (tr tf : ℕ) (es : List Edge)
    (hf : fuel ≠ 0)
    (htr : tr = st.samplenum + lowDur b)
    (htf : tf = st.samplenum + 100)
    (h16 : st.bit_count < 16) :
    dataLoop opt 1000000 fuel st (⟨.r, tr⟩ :: ⟨.f, tf⟩ :: es) =
      (let bv : ℕ := if b then 1 else 0
        let rest := dataLoop opt 1000000 (fuel - 1)
          { st with bit := bv, bit_count := st.bit_count + 1,
                    rise := tr, samplenum := tf, fall := tf,
                    data_word := st.data_word + bv <<< (16 - (st.bit_count + 1)) } es
        (⟨st.samplenum, tf, 8, [toString bv]⟩ :: rest.1, rest.2)) := by
  cases fuel with
  | zero => exact absurd rfl hf
  | succ n =>
    subst htr htf
    cases b <;>
      · simp only [dataLoop, h16, if_pos, if_true, waitDir, lowDur]
        norm_num [interval, classify_bit, dataAccum]

/-- One malformed (50/50) bit cell processed by the DATA loop: no bit
annotation, the state is set to ATTENTION but the loop continues, the
counter is not incremented, and the stale bit is accumulated again. -/
theorem dataLoop_malcell (opt : TolOpt) (fuel : ℕ) (st : DState)
    (tr tf : ℕ) (es : List Edge)
    (hf : fuel ≠ 0)
    (htr : tr = st.samplenum + 50)
    (htf : tf = st.samplenum + 100)
    (h16 : st.bit_count < 16) :
    dataLoop opt 1000000 fuel st (⟨.r, tr⟩ :: ⟨.f, tf⟩ :: es) =
      dataLoop opt 1000000 (fuel - 1)
        { st with state := .ATTENTION, rise := tr, samplenum := tf, fall := tf,
                  data_word := st.data_word + st.bit <<< (16 - st.bit_count) } es := by
  cases fuel with
  | zero => exact absurd rfl hf
  | succ n =>
    subst htr htf
    simp only [dataLoop, h16, if_pos, if_true, waitDir]
    norm_num [interval, classify_bit, dataAccum]

/-- The DATA loop once sixteen bits have been consumed: emit the data
annotation and move to STOP_DATA. -/
theorem dataLoop_done (opt : TolOpt) (sr : ℚ) (fuel : ℕ) (st : DState)
    (es : List Edge) (hf : fuel ≠ 0) (h16 : ¬st.bit_count < 16) :
    dataLoop opt sr fuel st es =
      ([⟨st.sample_data_start, st.samplenum, 14,
          ["Data: 0x" ++ pyHex04 st.data_word]⟩],
        .next { st with state := .STOP_DATA } es) := by
  cases fuel with
  | zero => exact absurd rfl hf
  | succ n => simp only [dataLoop, h16, if_false]

end ADB

namespace ADB

/-- Specialization of dataLoop_cell to a zero cell (low 65 us). -/
theorem dataLoop_cell0 (opt : TolOpt) (fuel : ℕ) (st : DState)
    (tr tf : ℕ) (es : List Edge)
    (hf : fuel ≠ 0)
    (htr : tr = st.samplenum + 65)
    (htf : tf = st.samplenum + 100)
    (h16 : st.bit_count < 16) :
    dataLoop opt 1000000 fuel st (⟨.r, tr⟩ :: ⟨.f, tf⟩ :: es) =
      (⟨st.samplenum, tf, 8, ["0"]⟩ ::
          (dataLoop opt 1000000 (fuel - 1)
            { st with bit := 0, bit_count := st.bit_count + 1,
                      rise := tr, samplenum := tf, fall := tf } es).1,
        (dataLoop opt 1000000 (fuel - 1)
          { st with bit := 0, bit_count := st.bit_count + 1,
                    rise := tr, samplenum := tf, fall := tf } es).2) := by
  have key := dataLoop_cell opt fuel st false tr tf es hf
    (by simpa [lowDur] using htr) htf h16
  simpa [tsZero] using key

/-- Specialization of dataLoop_cell to a one cell (low 35 us). -/
theorem dataLoop_cell1 (opt : TolOpt) (fuel : ℕ) (st : DState)
    (tr tf : ℕ) (es : List Edge)
    (hf : fuel ≠ 0)
    (htr : tr = st.samplenum + 35)
    (htf : tf = st.samplenum + 100)
    (h16 : st.bit_count < 16) :
    dataLoop opt 1000000 fuel st (⟨.r, tr⟩ :: ⟨.f, tf⟩ :: es) =
      (⟨st.samplenum, tf, 8, ["1"]⟩ ::
          (dataLoop opt 1000000 (fuel - 1)
            { st with bit := 1, bit_count := st.bit_count + 1,
                      rise := tr, samplenum := tf, fall := tf,
                      data_word := st.data_word + 1 <<< (16 - (st.bit_count + 1)) } es).1,
        (dataLoop opt 1000000 (fuel - 1)
          { st with bit := 1, bit_count := st.bit_count + 1,
                    rise := tr, samplenum := tf, fall := tf,
                    data_word := st.data_word + 1 <<< (16 - (st.bit_count + 1)) } es).2) := by
  have key := dataLoop_cell opt fuel st true tr tf es hf
    (by simpa [lowDur] using htr) htf h16
  simpa [tsOne] using key

end ADB

namespace ADB

end ADB

namespace ADB

/-- dataLoop_cells with a free start sample index for rewriting. -/
theorem dataLoop_cells_t (opt : TolOpt) (bs : List Bool) (fuel : ℕ) (st : DState)
    (t : ℕ) (es : List Edge)
    (hbc : st.bit_count + bs.length = 16)
    (hsam : st.samplenum = t)
    (hfall : st.fall = t)
    (hflt : bs.length < fuel) :
    dataLoop opt 1000000 fuel st (cellsEdges t bs ++ es) =
      (dataBitAnns t bs ++
        [⟨st.sample_data_start, t + 100 * bs.length, 14,
          ["Data: 0x" ++ pyHex04 (st.data_word + msbVal bs)]⟩],
        .next { st with state := .STOP_DATA, bit := lastBit st.bit bs,
                        bit_count := 16, rise := lastRise st.rise t bs,
                        data_word := st.data_word + msbVal bs,
                        fall := t + 100 * bs.length,
                        samplenum := t + 100 * bs.length } es) := by
  subst hsam
  exact dataLoop_cells opt bs fuel st es hbc hfall hflt

end ADB

namespace ADB

set_option maxRecDepth 8000 in
set_option maxHeartbeats 3200000 in
/-- The COMMAND loop over eight well-formed cells starting at sample t,
from a fresh per-transaction state: all per-bit and field annotations are
emitted, the fields hold the MSB-first values, and the machine moves to
STOP_CMD. -/
theorem cmdLoop8 (opt : TolOpt) (fuel annId : ℕ) (st : DState)
    (b0 b1 b2 b3 b4 b5 b6 b7 : Bool) (t : ℕ) (es : List Edge)
    (hf : 8 < fuel)
    (hsam : st.samplenum = t)
    (hbc : st.bit_count = 0)
    (hcmd : st.command = 0)
    (haddr : st.address = 0)
    (hreg : st.reg = 0)
    (hlbl : st.cmdLabel = none)
    (hcv : msbVal [b4, b5] ≠ 1) :
    cmdLoop opt 1000000 fuel annId st
        (cellsEdges t [b0, b1, b2, b3, b4, b5, b6, b7] ++ es) =
      ([⟨t, t + 100, 5, [toString (if b0 = true then (1 : ℕ) else 0)]⟩,
        ⟨t + 100, t + 200, 5, [toString (if b1 = true then (1 : ℕ) else 0)]⟩,
        ⟨t + 200, t + 300, 5, [toString (if b2 = true then (1 : ℕ) else 0)]⟩,
        ⟨t + 300, t + 400, 5, [toString (if b3 = true then (1 : ℕ) else 0)]⟩,
        ⟨t, t + 400, 12, ["Address: " ++ pyHex (msbVal [b0, b1, b2, b3])]⟩,
        ⟨t + 400, t + 500, 6, [toString (if b4 = true then (1 : ℕ) else 0)]⟩,
        ⟨t + 500, t + 600, 6, [toString (if b5 = true then (1 : ℕ) else 0)]⟩,
        ⟨t + 400, t + 600, 11, (commandLabel (msbVal [b4, b5]) none).getD []⟩,
        ⟨t + 600, t + 700, 7, [toString (if b6 = true then (1 : ℕ) else 0)]⟩,
        ⟨t + 700, t + 800, 7, [toString (if b7 = true then (1 : ℕ) else 0)]⟩,
        ⟨t + 600, t + 800, 13, ["Register: " ++ pyHex (msbVal [b6, b7])]⟩],
        .next { st with state := .STOP_CMD, bit := (if b7 = true then 1 else 0),
                        bit_count := 8, address := msbVal [b0, b1, b2, b3],
                        command := msbVal [b4, b5], reg := msbVal [b6, b7],
                        fall := t + 800, rise := t + 700 + lowDur b7,
                        samplenum := t + 800, sample_addr_start := t,
                        sample_cmd_start := t + 400, sample_reg_start := t + 600,
                        cmdLabel := commandLabel (msbVal [b4, b5]) none } es) := by
  obtain ⟨s, bt, bc, ad, cm, rg, dw, fl, rs, ts, sn, sas, scs, srs, sds, dn, lb⟩ := st
  simp only at hsam hbc hcmd haddr hreg hlbl
  subst hsam hbc hcmd haddr hreg hlbl
  have hA4 : ((if b0 = true then (1:ℕ) else 0) <<< 3 + (if b1 = true then 1 else 0) <<< 2 +
      (if b2 = true then 1 else 0) <<< 1 + (if b3 = true then 1 else 0)) =
      msbVal [b0, b1, b2, b3] := by
    cases b0 <;> cases b1 <;> cases b2 <;> cases b3 <;> rfl
  have hC2 : ((if b4 = true then (1:ℕ) else 0) <<< 1 + (if b5 = true then 1 else 0)) =
      msbVal [b4, b5] := by
    cases b4 <;> cases b5 <;> rfl
  have hR2 : ((if b6 = true then (1:ℕ) else 0) <<< 1 + (if b7 = true then 1 else 0)) =
      msbVal [b6, b7] := by
    cases b6 <;> cases b7 <;> rfl
  rw [← hA4, ← hC2, ← hR2]
  simp only [cellsEdges, cellEdges, List.cons_append, List.nil_append,
    List.append_assoc]
  rw [cmdLoop_cell]
  case hf => omega
  case hsam => norm_num
  case h8 => norm_num
  case hno => norm_num
  norm_num [accumStep]
  rw [cmdLoop_cell]
  case hf => omega
  case hsam => norm_num
  case h8 => norm_num
  case hno => norm_num
  norm_num [accumStep]
  rw [cmdLoop_cell]
  case hf => omega
  case hsam => norm_num
  case h8 => norm_num
  case hno => norm_num
  norm_num [accumStep]
  rw [cmdLoop_cell]
  case hf => omega
  case hsam => norm_num
  case h8 => norm_num
  case hno => norm_num
  norm_num [accumStep]
  rw [cmdLoop_cell]
  case hf => omega
  case hsam => norm_num
  case h8 => norm_num
  case hno => norm_num
  norm_num [accumStep]
  rw [cmdLoop_cell]
  case hf => omega
  case hsam => norm_num
  case h8 => norm_num
  case hno => norm_num
  norm_num [accumStep]
  rw [cmdLoop_cell]
  case hf => omega
  case hsam => norm_num
  case h8 => norm_num
  case hno =>
    cases b4 <;> cases b5 <;>
      simp_all [commandLabel, msbVal, accumStep]
  norm_num [accumStep]
  rw [cmdLoop_cell]
  case hf => omega
  case hsam => norm_num
  case h8 => norm_num
  case hno => norm_num
  norm_num [accumStep]
  rw [cmdLoop_done]
  case hf => omega
  case h8 => norm_num
  norm_num [lowDur]

end ADB

namespace ADB

end ADB

namespace ADB

set_option maxRecDepth 8000 in
set_option maxHeartbeats 3200000 in
/-- The decode loop from the STOP_CMD state of the generated capture
through the data phase to the end of the capture. -/
theorem run_tail (fuel : ℕ) (st : DState) (db : List Bool)
    (h16 : db.length = 16)
    (hfuel : 5 < fuel)
    (hst : st.state = .STOP_CMD)
    (hfall : st.fall = 1665)
    (hdw : st.data_word = 0)
    (hdn : st.done = false) :
    run .strict 1000000 fuel st
        (⟨.r, 1735⟩ :: ⟨.f, 1935⟩ :: (cellEdges 1935 true ++
          (cellsEdges 2035 db ++ [⟨.r, 3705⟩]))) =
      ([⟨1665, 1735, 4, ["STOP", "ST"]⟩,
        ⟨1735, 1935, 9, ["Stop-to-Start", "TLT"]⟩,
        ⟨1935, 2035, 3, ["Start", "St"]⟩] ++
        (dataBitAnns 2035 db ++
        [⟨2035, 3635, 14, ["Data: 0x" ++ pyHex04 (msbVal db)]⟩,
         ⟨3635, 3705, 4, ["STOP", "ST"]⟩]), none) := by
  obtain ⟨s, bt, bc, ad, cm, rg, dw, fl, rs, ts, sn, sas, scs, srs, sds, dn, lb⟩ := st
  simp only at hst hfall hdw hdn
  subst hst hfall hdw hdn
  rw [run_step .strict 1000000 fuel _ _ (by omega)]
  rw [stop_cmd_step]
  case hst => rfl
  rw [if_pos (by norm_num [interval, check_tolerance, timing, timingTol])]
  dsimp only
  rw [run_step .strict 1000000 (fuel - 1) _ _ (by omega)]
  rw [tlt_step]
  case hst => rfl
  rw [if_pos (by norm_num [interval, check_tolerance, timing, timingTol])]
  dsimp only
  simp only [cellEdges, List.cons_append, List.nil_append]
  rw [run_step .strict 1000000 (fuel - 1 - 1) _ _ (by omega)]
  rw [start_data_step]
  case hst => rfl
  rw [if_pos (by norm_num [interval, lowDur])]
  dsimp only
  rw [run_step .strict 1000000 (fuel - 1 - 1 - 1) _ _ (by omega)]
  rw [data_step]
  case hst => rfl
  rw [dataLoop_cells_t]
  case hbc => simp [h16]
  case hsam => norm_num [lowDur]
  case hfall => norm_num [lowDur]
  case hflt => simp [cellsEdges_length, h16]
  dsimp only
  rw [show (2035 + 100 * db.length) = 3635 from by rw [h16]]
  rw [run_step .strict 1000000 (fuel - 1 - 1 - 1 - 1) _ _ (by omega)]
  rw [stop_data_step]
  case hst => rfl
  rw [if_pos (by norm_num [interval, check_tolerance, timing, timingTol])]
  dsimp only
  rw [run_step .strict 1000000 (fuel - 1 - 1 - 1 - 1 - 1) _ _ (by omega)]
  rw [attention_eos]
  case hst => rfl
  case hd => rfl
  simp [Nat.zero_add]

end ADB

namespace ADB

end ADB

namespace ADB

/-- One ATTENTION pass of the decode loop on a matching pulse. -/
theorem run_attention (opt : TolOpt) (sr : ℚ) (fuel : ℕ) (st : DState)
    (a c : ℕ) (es : List Edge)
    (hf : fuel ≠ 0) (hst : st.state = .ATTENTION) (hd : st.done = false)
    (hcond : timing .ATTENTION - timingTol .ATTENTION ≤ interval a c sr) :
    run opt sr fuel st (⟨.f, a⟩ :: ⟨.r, c⟩ :: es) =
      (⟨a, c, 1, ["Bus Attention", "Attention", "ATTN", "A"]⟩ ::
        (run opt sr (fuel - 1)
          { st with state := .SYNC, address := 0, command := 0, reg := 0,
                    data_word := 0, bit_count := 0, fall := a, rise := c,
                    samplenum := c, tstart := c, done := false } es).1,
        (run opt sr (fuel - 1)
          { st with state := .SYNC, address := 0, command := 0, reg := 0,
                    data_word := 0, bit_count := 0, fall := a, rise := c,
                    samplenum := c, tstart := c, done := false } es).2) := by
  cases fuel with
  | zero => exact absurd rfl hf
  | succ n =>
    simp only [run]
    rw [attention_step _ _ _ _ _ _ hst hd, if_pos hcond]
    rfl

/-- One SYNC pass of the decode loop on a matching interval. -/
theorem run_sync (opt : TolOpt) (sr : ℚ) (fuel : ℕ) (st : DState)
    (c : ℕ) (es : List Edge)
    (hf : fuel ≠ 0) (hst : st.state = .SYNC)
    (hcond : check_tolerance opt (interval st.rise c sr) .SYNC = true) :
    run opt sr fuel st (⟨.f, c⟩ :: es) =
      (⟨st.rise, c, 2, ["Sync", "SS"]⟩ ::
        (run opt sr (fuel - 1)
          { st with state := .COMMAND, fall := c, samplenum := c } es).1,
        (run opt sr (fuel - 1)
          { st with state := .COMMAND, fall := c, samplenum := c } es).2) := by
  cases fuel with
  | zero => exact absurd rfl hf
  | succ n =>
    simp only [run]
    rw [sync_step _ _ _ _ _ hst, if_pos hcond]
    rfl

set_option maxRecDepth 8000 in
set_option maxHeartbeats 3200000 in
/-- One COMMAND pass of the decode loop over eight well-formed cells. -/
theorem run_cmd8 (opt : TolOpt) (fuel : ℕ) (st : DState)
    (b0 b1 b2 b3 b4 b5 b6 b7 : Bool) (t : ℕ) (es : List Edge)
    (hf : fuel ≠ 0) (hst : st.state = .COMMAND)
    (hsam : st.samplenum = t)
    (hcmd : st.command = 0) (haddr : st.address = 0) (hreg : st.reg = 0)
    (hlbl : st.cmdLabel = none) (hcv : msbVal [b4, b5] ≠ 1) :
    run opt 1000000 fuel st
        (cellsEdges t [b0, b1, b2, b3, b4, b5, b6, b7] ++ es) =
      ([⟨t, t + 100, 5, [toString (if b0 = true then (1 : ℕ) else 0)]⟩,
        ⟨t + 100, t + 200, 5, [toString (if b1 = true then (1 : ℕ) else 0)]⟩,
        ⟨t + 200, t + 300, 5, [toString (if b2 = true then (1 : ℕ) else 0)]⟩,
        ⟨t + 300, t + 400, 5, [toString (if b3 = true then (1 : ℕ) else 0)]⟩,
        ⟨t, t + 400, 12, ["Address: " ++ pyHex (msbVal [b0, b1, b2, b3])]⟩,
        ⟨t + 400, t + 500, 6, [toString (if b4 = true then (1 : ℕ) else 0)]⟩,
        ⟨t + 500, t + 600, 6, [toString (if b5 = true then (1 : ℕ) else 0)]⟩,
        ⟨t + 400, t + 600, 11, (commandLabel (msbVal [b4, b5]) none).getD []⟩,
        ⟨t + 600, t + 700, 7, [toString (if b6 = true then (1 : ℕ) else 0)]⟩,
        ⟨t + 700, t + 800, 7, [toString (if b7 = true then (1 : ℕ) else 0)]⟩,
        ⟨t + 600, t + 800, 13, ["Register: " ++ pyHex (msbVal [b6, b7])]⟩] ++
        (run opt 1000000 (fuel - 1)
          { st with state := .STOP_CMD, bit := (if b7 = true then 1 else 0),
                    bit_count := 8, address := msbVal [b0, b1, b2, b3],
                    command := msbVal [b4, b5], reg := msbVal [b6, b7],
                    fall := t + 800, rise := t + 700 + lowDur b7,
                    samplenum := t + 800, sample_addr_start := t,
                    sample_cmd_start := t + 400, sample_reg_start := t + 600,
                    cmdLabel := commandLabel (msbVal [b4, b5]) none } es).1,
        (run opt 1000000 (fuel - 1)
          { st with state := .STOP_CMD, bit := (if b7 = true then 1 else 0),
                    bit_count := 8, address := msbVal [b0, b1, b2, b3],
                    command := msbVal [b4, b5], reg := msbVal [b6, b7],
                    fall := t + 800, rise := t + 700 + lowDur b7,
                    samplenum := t + 800, sample_addr_start := t,
                    sample_cmd_start := t + 400, sample_reg_start := t + 600,
                    cmdLabel := commandLabel (msbVal [b4, b5]) none } es).2) := by
  cases fuel with
  | zero => exact absurd rfl hf
  | succ n =>
    simp only [run]
    rw [command_step _ _ _ _ hst]
    rw [cmdLoop8]
    case hf =>
      simp only [List.length_append, cellsEdges_length, List.length_cons,
        List.length_nil]
      omega
    case hsam => simpa using hsam
    case hbc => simp
    case hcmd => simpa using hcmd
    case haddr => simpa using haddr
    case hreg => simpa using hreg
    case hlbl => simpa using hlbl
    case hcv => exact hcv
    rfl

end ADB

namespace ADB

set_option maxRecDepth 8000 in
set_option maxHeartbeats 3200000 in
/-- Full decode of a generated valid transaction at 1 MHz. -/
theorem C3_decode_eq (b0 b1 b2 b3 b4 b5 b6 b7 : Bool) (db : List Bool)
    (h16 : db.length = 16)
    (hcv : msbVal [b4, b5] ≠ 1) :
    decode .strict (some 1000000)
        (validStream [b0, b1, b2, b3, b4, b5, b6, b7] db) =
      ([⟨0, 800, 1, ["Bus Attention", "Attention", "ATTN", "A"]⟩,
        ⟨800, 865, 2, ["Sync", "SS"]⟩,
        ⟨865, 965, 5, [toString (if b0 = true then (1 : ℕ) else 0)]⟩,
        ⟨965, 1065, 5, [toString (if b1 = true then (1 : ℕ) else 0)]⟩,
        ⟨1065, 1165, 5, [toString (if b2 = true then (1 : ℕ) else 0)]⟩,
        ⟨1165, 1265, 5, [toString (if b3 = true then (1 : ℕ) else 0)]⟩,
        ⟨865, 1265, 12, ["Address: " ++ pyHex (msbVal [b0, b1, b2, b3])]⟩,
        ⟨1265, 1365, 6, [toString (if b4 = true then (1 : ℕ) else 0)]⟩,
        ⟨1365, 1465, 6, [toString (if b5 = true then (1 : ℕ) else 0)]⟩,
        ⟨1265, 1465, 11, (commandLabel (msbVal [b4, b5]) none).getD []⟩,
        ⟨1465, 1565, 7, [toString (if b6 = true then (1 : ℕ) else 0)]⟩,
        ⟨1565, 1665, 7, [toString (if b7 = true then (1 : ℕ) else 0)]⟩,
        ⟨1465, 1665, 13, ["Register: " ++ pyHex (msbVal [b6, b7])]⟩,
        ⟨1665, 1735, 4, ["STOP", "ST"]⟩,
        ⟨1735, 1935, 9, ["Stop-to-Start", "TLT"]⟩,
        ⟨1935, 2035, 3, ["Start", "St"]⟩] ++
        dataBitAnns 2035 db ++
        [⟨2035, 3635, 14, ["Data: 0x" ++ pyHex04 (msbVal db)]⟩,
         ⟨3635, 3705, 4, ["STOP", "ST"]⟩], none) := by
  have hL : (validStream [b0, b1, b2, b3, b4, b5, b6, b7] db).length + 1 = 57 := by
    simp [validStream, cellsEdges_length, cellEdges, h16]
  simp only [decode]
  rw [if_neg (by norm_num : ¬(1000000 : ℚ) = 0), hL]
  norm_num [checks]
  simp only [validStream, List.cons_append, List.nil_append, List.append_assoc]
  rw [run_attention]
  case hf => norm_num
  case hst => rfl
  case hd => rfl
  case hcond => norm_num [interval, timing, timingTol]
  rw [run_sync]
  case hf => norm_num
  case hst => rfl
  case hcond => norm_num [interval, check_tolerance, timing, timingTol]
  rw [run_cmd8]
  case hf => norm_num
  case hst => rfl
  case hsam => norm_num
  case hcmd => norm_num
  case haddr => norm_num
  case hreg => norm_num
  case hlbl => norm_num [initState]
  case hcv => exact hcv
  rw [run_tail]
  case h16 => exact h16
  case hfuel => norm_num
  case hst => rfl
  case hfall => norm_num
  case hdw => norm_num
  case hdn => norm_num
  simp [List.append_assoc, List.cons_append]

end ADB

namespace ADB

set_option maxRecDepth 4000 in
/-- Counterexample for claim C3: the stream cmd1Stream encodes a fully valid
transaction (attention 800 us, sync 65 us, 8 well-formed command cells, stop,
TLT, start, 16 well-formed data cells, stop) whose command bits encode the
value 1; decode aborts it with an unbound-local failure instead of emitting
the ten claimed events. -/
theorem C3_counterexample :
    (decode .strict (some 1000000) cmd1Stream).2 = some .unboundLocalError ∧
    ((decode .strict (some 1000000) cmd1Stream).1.filter
        (fun a => !isBitAnn a)).map Ann.cls ≠ [1, 2, 12, 11, 13, 4, 9, 3, 14, 4] := by
  norm_num [decode, checks, run, step, cmdLoop, waitDir, initState, interval,
    timing, timingTol, check_tolerance, classify_bit, accumStep, commandLabel,
    cmd1Stream, validStream, cellsEdges, cellEdges, lowDur, isBitAnn,
    tsZero, tsOne, someLabel_ne, dir_rf, dir_fr]
  decide

set_option maxRecDepth 8000 in
set_option maxHeartbeats 3200000 in
/-- Claim C3 (amended): for every sample stream encoding one valid transaction
(attention pulse 800 us, sync 65 us, 8 well-formed command bit cells, stop
70 us, TLT 200 us, start bit, 16 well-formed data bit cells, stop 70 us) whose
two command bits do not encode the value 1, decode finishes with no surfaced
failure and its non-bit annotations are exactly the ten events Attention, Sync,
Address, Command, Register, Stop, Stop-to-Start, Start, Data, Stop, in that
order, with address, command label, register and data values computed MSB-first
from the injected bit pattern. -/
theorem C3_valid_transaction (b0 b1 b2 b3 b4 b5 b6 b7 : Bool) (db : List Bool)
    (h16 : db.length = 16) (hcv : msbVal [b4, b5] ≠ 1) :
    (decode .strict (some 1000000)
        (validStream [b0, b1, b2, b3, b4, b5, b6, b7] db)).2 = none ∧
    (decode .strict (some 1000000)
        (validStream [b0, b1, b2, b3, b4, b5, b6, b7] db)).1.filter
        (fun a => !isBitAnn a) =
      [⟨0, 800, 1, ["Bus Attention", "Attention", "ATTN", "A"]⟩,
       ⟨800, 865, 2, ["Sync", "SS"]⟩,
       ⟨865, 1265, 12, ["Address: " ++ pyHex (msbVal [b0, b1, b2, b3])]⟩,
       ⟨1265, 1465, 11, (commandLabel (msbVal [b4, b5]) none).getD []⟩,
       ⟨1465, 1665, 13, ["Register: " ++ pyHex (msbVal [b6, b7])]⟩,
       ⟨1665, 1735, 4, ["STOP", "ST"]⟩,
       ⟨1735, 1935, 9, ["Stop-to-Start", "TLT"]⟩,
       ⟨1935, 2035, 3, ["Start", "St"]⟩,
       ⟨2035, 3635, 14, ["Data: 0x" ++ pyHex04 (msbVal db)]⟩,
       ⟨3635, 3705, 4, ["STOP", "ST"]⟩] := by
  rw [C3_decode_eq b0 b1 b2 b3 b4 b5 b6 b7 db h16 hcv]
  refine ⟨rfl, ?_⟩
  rw [List.filter_append, List.filter_append, dataBitAnns_filter]
  simp [isBitAnn]

/-- Witness for claim C3: the theorem applied at a concrete bit pattern
(address 0xa, command 2, register 0x1, data word 0xb4cb). -/
theorem C3_valid_transaction_witness :
    ([true, false, true, true, false, true, false, false,
      true, true, false, false, true, false, true, true] : List Bool).length = 16 ∧
    msbVal [true, false] ≠ 1 ∧
    ((decode .strict (some 1000000)
        (validStream [true, false, true, false, true, false, false, true]
          [true, false, true, true, false, true, false, false,
           true, true, false, false, true, false, true, true])).2 = none ∧
     (decode .strict (some 1000000)
        (validStream [true, false, true, false, true, false, false, true]
          [true, false, true, true, false, true, false, false,
           true, true, false, false, true, false, true, true])).1.filter
        (fun a => !isBitAnn a) =
      [⟨0, 800, 1, ["Bus Attention", "Attention", "ATTN", "A"]⟩,
       ⟨800, 865, 2, ["Sync", "SS"]⟩,
       ⟨865, 1265, 12, ["Address: " ++ pyHex (msbVal [true, false, true, false])]⟩,
       ⟨1265, 1465, 11, (commandLabel (msbVal [true, false]) none).getD []⟩,
       ⟨1465, 1665, 13, ["Register: " ++ pyHex (msbVal [false, true])]⟩,
       ⟨1665, 1735, 4, ["STOP", "ST"]⟩,
       ⟨1735, 1935, 9, ["Stop-to-Start", "TLT"]⟩,
       ⟨1935, 2035, 3, ["Start", "St"]⟩,
       ⟨2035, 3635, 14, ["Data: 0x" ++ pyHex04 (msbVal
         [true, false, true, true, false, true, false, false,
          true, true, false, false, true, false, true, true])]⟩,
       ⟨3635, 3705, 4, ["STOP", "ST"]⟩]) :=
  ⟨by decide, by decide,
   C3_valid_transaction true false true false true false false true
     [true, false, true, true, false, true, false, false,
      true, true, false, false, true, false, true, true] (by decide) (by decide)⟩

end ADB

namespace ADB

/-- Claim C8: bit-cell classification is by the 0.6 dominance ratio. -/
theorem C8_classify_bit :
    (∀ low high : ℚ, 0 ≤ low → 0 ≤ high → 0 < low + high →
      ((classify_bit low high = .Zero ↔ low / (low + high) > 0.6) ∧
        (classify_bit low high = .One ↔ high / (low + high) > 0.6) ∧
        (classify_bit low high = .Malformed ↔
          ¬low / (low + high) > 0.6 ∧ ¬high / (low + high) > 0.6))) ∧
    classify_bit 70 30 = .Zero ∧ classify_bit 50 50 = .Malformed := by
  refine ⟨fun low high hl hh hc => ?_,
    by norm_num [classify_bit], by norm_num [classify_bit]⟩
  have hx : low / (low + high) > 0.6 → ¬high / (low + high) > 0.6 := by
    intro h1 h2
    have hs := add_lt_add h1 h2
    rw [div_add_div_same, div_self (ne_of_gt hc)] at hs
    norm_num at hs
  by_cases h1 : low / (low + high) > 0.6
  · simp [classify_bit, h1, hx h1]
  · by_cases h2 : high / (low + high) > 0.6
    · simp [classify_bit, h1, h2]
    · simp [classify_bit, h1, h2]

/-- Witness for claim C8 at the concrete cell low 70, high 30. -/
theorem C8_classify_bit_witness :
    classify_bit 70 30 = .Zero ↔ (70 : ℚ) / (70 + 30) > 0.6 :=
  (C8_classify_bit.1 70 30 (by norm_num) (by norm_num) (by norm_num)).1

/-- Claim C7: the tolerance window test, with its boundary instances. -/
theorem C7_check_tolerance :
    (∀ (w : ℚ) (ty : TKey),
      (check_tolerance .strict w ty = true ↔
        timing ty - timingTol ty ≤ w ∧ w ≤ timing ty + timingTol ty) ∧
      (check_tolerance .relaxed w ty = true ↔
        timing ty - timingTol ty * 1.1 ≤ w ∧ w ≤ timing ty + timingTol ty * 1.1)) ∧
    check_tolerance .strict 63 .SYNC = true ∧
    check_tolerance .strict 62 .SYNC = false ∧
    check_tolerance .relaxed 62.9 .SYNC = true ∧
    decode .strict (some 1000000) syncBadStream =
      ([⟨0, 800, 1, ["Bus Attention", "Attention", "ATTN", "A"]⟩,
        ⟨1000, 1900, 1, ["Bus Attention", "Attention", "ATTN", "A"]⟩], none) := by
  refine ⟨fun w ty => ⟨by simp [check_tolerance], by simp [check_tolerance]⟩,
    by norm_num [check_tolerance, timing, timingTol],
    by norm_num [check_tolerance, timing, timingTol],
    by norm_num [check_tolerance, timing, timingTol],
    by norm_num [decode, checks, run, step, waitDir, initState, interval, timing,
      timingTol, check_tolerance, syncBadStream, dir_rf, dir_fr]⟩

/-- Claim C10: a samplerate of exactly zero is treated like a missing one:
the samplerate error is raised before any annotation is emitted. -/
theorem C10_falsy_samplerate :
    ∀ (opt : TolOpt) (es : List Edge),
      decode opt (some 0) es = ([], some .samplerateError) ∧
      decode opt none es = ([], some .samplerateError) := by
  intro opt es
  exact ⟨by simp [decode], rfl⟩

/-- Claim C6: the samplerate advisories are emitted with annotation class 1
(the attention class of the bus row), not class 15 (the warning class of
the warnings row). -/
theorem C6_samplerate_warnings :
    decode .strict (some 300000) [] =
      ([⟨0, 0, 1,
        ["Sampling rate is too low. Must be above 400kHz for proper normal mode decoding."]⟩],
        none) ∧
    decode .strict (some 500000) [] =
      ([⟨0, 0, 1,
        ["Sampling rate is suggested to be above 1MHz for proper normal mode decoding."]⟩],
        none) ∧
    annRows = [("bus", [0, 1, 2, 3, 4, 5, 6, 7, 8, 9, 10]),
      ("transactions", [11, 12, 13, 14]), ("warnings", [15])] ∧
    annClasses.get? 1 = some ("attention", "Attention condition") ∧
    annClasses.get? 15 = some ("warning", "Warning") :=
  ⟨by norm_num [decode, checks, run, step, waitDir, initState],
    by norm_num [decode, checks, run, step, waitDir, initState], rfl, rfl, rfl⟩

end ADB

namespace ADB

/-- Claim C9: MSB-first packing of all fields, and the command-label map. -/
theorem C9_msb_first :
    (∀ bs : List Bool, bs.length = 8 →
      (cmdFeed initState bs).address = msbVal (bs.take 4) ∧
      (cmdFeed initState bs).command = msbVal ((bs.drop 4).take 2) ∧
      (cmdFeed initState bs).reg = msbVal (bs.drop 6)) ∧
    (∀ bs : List Bool, bs.length = 16 →
      (dataFeed initState bs).data_word = msbVal bs) ∧
    (∀ old : Option (List String),
      commandLabel 0 old = some ["Flush", "Flsh", "Fl", "F"] ∧
      commandLabel 2 old = some ["Listen", "Lst", "L"] ∧
      commandLabel 3 old = some ["Talk", "Tlk", "T"]) ∧
    msbVal [false, true, false, true] = 5 := by
  refine ⟨?_, ?_, fun old => ⟨rfl, rfl, rfl⟩, by decide⟩
  · intro bs h8
    rcases bs with _ | ⟨b0, _ | ⟨b1, _ | ⟨b2, _ | ⟨b3, _ | ⟨b4, _ | ⟨b5, _ | ⟨b6, _ | ⟨b7,
      _ | ⟨b8, tl⟩⟩⟩⟩⟩⟩⟩⟩⟩ <;> simp_all
    revert b0 b1 b2 b3 b4 b5 b6 b7
    decide
  · intro bs h16
    have key := dataFeed_data_word bs initState (by simp [initState, h16])
    simpa [initState, h16] using key

/-- Witness for claim C9 at concrete bit lists. -/
theorem C9_msb_first_witness :
    (cmdFeed initState [false, true, false, true, true, false, true, true]).address =
      msbVal ([false, true, false, true, true, false, true, true].take 4) ∧
    (dataFeed initState (List.replicate 16 true)).data_word =
      msbVal (List.replicate 16 true) :=
  ⟨(C9_msb_first.1 [false, true, false, true, true, false, true, true] rfl).1,
    C9_msb_first.2.1 (List.replicate 16 true) rfl⟩

end ADB

namespace ADB

/-- Claim C1 (code evaluated at the failing input): with the first command
bit cell malformed, the loop still runs to completion, the Register
annotation is still emitted, and the machine proceeds to STOP_CMD (the
following STOP annotation is emitted) instead of returning to ATTENTION. -/
theorem C1_malformed_command_cell :
    decode .strict (some 1000000) c1Stream =
      ([⟨0, 800, 1, ["Bus Attention", "Attention", "ATTN", "A"]⟩,
        ⟨800, 865, 2, ["Sync", "SS"]⟩,
        ⟨965, 1065, 5, ["0"]⟩, ⟨1065, 1165, 5, ["0"]⟩, ⟨1165, 1265, 5, ["0"]⟩,
        ⟨865, 1265, 12, ["Address: 0x0"]⟩,
        ⟨1265, 1365, 6, ["0"]⟩, ⟨1365, 1465, 6, ["0"]⟩,
        ⟨1265, 1465, 11, ["Flush", "Flsh", "Fl", "F"]⟩,
        ⟨1465, 1565, 7, ["0"]⟩, ⟨1565, 1665, 7, ["0"]⟩,
        ⟨1465, 1665, 13, ["Register: 0x0"]⟩,
        ⟨1665, 1735, 4, ["STOP", "ST"]⟩], none) := by
  norm_num [decode, checks, run, step, cmdLoop, waitDir, initState, interval,
    timing, timingTol, check_tolerance, classify_bit, accumStep, commandLabel,
    c1Stream, malCellEdges, cellsEdges, cellEdges, lowDur, pyHex, Nat.toDigits,
    Nat.toDigitsCore, tsZero, tsOne, someLabel_ne, dir_rf, dir_fr]
  exact ⟨rfl, rfl⟩

end ADB

namespace ADB

set_option maxRecDepth 4000 in
set_option maxHeartbeats 1600000 in
/-- Claim C2 (code evaluated at the failing input): with the 10th data bit
cell malformed, the loop keeps consuming cells, re-adds the stale bit (the
injected word would be 0x0080, the emitted one is 0x0100), emits the Data
annotation anyway and proceeds to STOP_DATA (the final STOP annotation is
emitted) instead of returning to ATTENTION. -/
theorem C2_malformed_data_cell :
    decode .strict (some 1000000) c2Stream =
      ([⟨0, 800, 1, ["Bus Attention", "Attention", "ATTN", "A"]⟩,
        ⟨800, 865, 2, ["Sync", "SS"]⟩,
        ⟨865, 965, 5, ["0"]⟩, ⟨965, 1065, 5, ["0"]⟩, ⟨1065, 1165, 5, ["0"]⟩,
        ⟨1165, 1265, 5, ["0"]⟩,
        ⟨865, 1265, 12, ["Address: 0x0"]⟩,
        ⟨1265, 1365, 6, ["0"]⟩, ⟨1365, 1465, 6, ["0"]⟩,
        ⟨1265, 1465, 11, ["Flush", "Flsh", "Fl", "F"]⟩,
        ⟨1465, 1565, 7, ["0"]⟩, ⟨1565, 1665, 7, ["0"]⟩,
        ⟨1465, 1665, 13, ["Register: 0x0"]⟩,
        ⟨1665, 1735, 4, ["STOP", "ST"]⟩,
        ⟨1735, 1935, 9, ["Stop-to-Start", "TLT"]⟩,
        ⟨1935, 2035, 3, ["Start", "St"]⟩,
        ⟨2035, 2135, 8, ["0"]⟩, ⟨2135, 2235, 8, ["0"]⟩, ⟨2235, 2335, 8, ["0"]⟩,
        ⟨2335, 2435, 8, ["0"]⟩, ⟨2435, 2535, 8, ["0"]⟩, ⟨2535, 2635, 8, ["0"]⟩,
        ⟨2635, 2735, 8, ["0"]⟩, ⟨2735, 2835, 8, ["0"]⟩, ⟨2835, 2935, 8, ["1"]⟩,
        ⟨3035, 3135, 8, ["0"]⟩, ⟨3135, 3235, 8, ["0"]⟩, ⟨3235, 3335, 8, ["0"]⟩,
        ⟨3335, 3435, 8, ["0"]⟩, ⟨3435, 3535, 8, ["0"]⟩, ⟨3535, 3635, 8, ["0"]⟩,
        ⟨3635, 3735, 8, ["0"]⟩,
        ⟨2035, 3735, 14, ["Data: 0x0100"]⟩,
        ⟨3735, 3805, 4, ["STOP", "ST"]⟩], none) := by
  norm_num [decode, checks, run, step, cmdLoop, dataLoop_cell0, dataLoop_cell1,
    dataLoop_malcell, dataLoop_done, waitDir, initState, interval, timing,
    timingTol, check_tolerance, classify_bit, accumStep, dataAccum, commandLabel,
    c2Stream, malCellEdges, cellsEdges, cellEdges, lowDur, pyHex, pyHex04,
    Nat.toDigits, Nat.toDigitsCore, tsZero, tsOne, someLabel_ne, dir_rf, dir_fr]
  exact ⟨rfl, rfl, rfl⟩

end ADB

namespace ADB

/-- Counterexample to claim C4: a low pulse of 5000 us lies far outside
the claimed window of 800 plus or minus 24 us, yet the decoder emits the
Attention event for it (and moves to SYNC). -/
theorem C4_counterexample :
    decode .strict (some 1000000) [⟨.f, 0⟩, ⟨.r, 5000⟩] =
      ([⟨0, 5000, 1, ["Bus Attention", "Attention", "ATTN", "A"]⟩], none) ∧
    ¬(timing .ATTENTION - timingTol .ATTENTION ≤ interval 0 5000 1000000 ∧
      interval 0 5000 1000000 ≤ timing .ATTENTION + timingTol .ATTENTION) := by
  constructor
  · norm_num [decode, checks, run, step, waitDir, initState, interval, timing,
      timingTol]
  · norm_num [interval, timing, timingTol]

/-- Claim C4 amended: in the ATTENTION state the event is emitted and the
machine moves to SYNC iff the measured width is at least nominal minus
tolerance (776 us); there is no upper bound, and the tolerance profile is
not consulted. -/
theorem C4_attention_lower_bound_only (opt : TolOpt) (sr : ℚ) (st : DState)
    (a c : ℕ) (es : List Edge)
    (hst : st.state = .ATTENTION) (hd : st.done = false) :
    step opt sr st (⟨.f, a⟩ :: ⟨.r, c⟩ :: es) =
      if timing .ATTENTION - timingTol .ATTENTION ≤ interval a c sr then
        ([⟨a, c, 1, ["Bus Attention", "Attention", "ATTN", "A"]⟩],
          .next { st with state := .SYNC, address := 0, command := 0, reg := 0,
                          data_word := 0, bit_count := 0, fall := a, rise := c,
                          samplenum := c, tstart := c, done := false } es)
      else
        ([], .next { st with address := 0, command := 0, reg := 0, data_word := 0,
                             bit_count := 0, fall := a, rise := c, samplenum := c,
                             done := false } es) :=
  attention_step opt sr st a c es hst hd

/-- Witness for the amended claim C4 at a concrete input. -/
theorem C4_attention_lower_bound_only_witness :
    step .strict 1000000 initState [⟨.f, 0⟩, ⟨.r, 800⟩] =
      (if timing .ATTENTION - timingTol .ATTENTION ≤ interval 0 800 1000000 then
        ([⟨0, 800, 1, ["Bus Attention", "Attention", "ATTN", "A"]⟩],
          .next { initState with state := .SYNC, address := 0, command := 0,
                                 reg := 0, data_word := 0, bit_count := 0,
                                 fall := 0, rise := 800, samplenum := 800,
                                 tstart := 800, done := false } [])
      else
        ([], .next { initState with address := 0, command := 0, reg := 0,
                                    data_word := 0, bit_count := 0, fall := 0,
                                    rise := 800, samplenum := 800,
                                    done := false } [])) :=
  C4_attention_lower_bound_only .strict 1000000 initState 0 800 [] rfl rfl

set_option maxRecDepth 4000 in
/-- Counterexample to claim C5: with a samplerate supplied, a transaction
whose 2-bit command value is 1 makes decode abort with an unbound-local
failure (the command-label variable was never assigned), so a hard failure
is surfaced even though a samplerate was supplied, and decoding does not
continue. -/
theorem C5_counterexample :
    decode .strict (some 1000000) cmd1Stream =
      ([⟨0, 800, 1, ["Bus Attention", "Attention", "ATTN", "A"]⟩,
        ⟨800, 865, 2, ["Sync", "SS"]⟩,
        ⟨865, 965, 5, ["0"]⟩, ⟨965, 1065, 5, ["0"]⟩, ⟨1065, 1165, 5, ["0"]⟩,
        ⟨1165, 1265, 5, ["0"]⟩,
        ⟨865, 1265, 12, ["Address: 0x0"]⟩,
        ⟨1265, 1365, 6, ["0"]⟩, ⟨1365, 1465, 6, ["1"]⟩],
        some .unboundLocalError) := by
  norm_num [decode, checks, run, step, cmdLoop, waitDir, initState, interval,
    timing, timingTol, check_tolerance, classify_bit, accumStep, commandLabel,
    cmd1Stream, validStream, cellsEdges, cellEdges, lowDur, pyHex, Nat.toDigits,
    Nat.toDigitsCore, tsZero, tsOne, someLabel_ne, dir_rf, dir_fr]
  exact rfl

/-- The state-machine loop never surfaces the samplerate failure: whatever
the fuel, state and edges, its surfaced exception is either nothing or the
unbound-local error (raised only inside the COMMAND loop). -/
theorem run_exn (opt : TolOpt) (sr : ℚ) :
    ∀ (fuel : ℕ) (st : DState) (es : List Edge),
      (run opt sr fuel st es).2 = none ∨
      (run opt sr fuel st es).2 = some .unboundLocalError := by
  intro fuel
  induction fuel with
  | zero => intro st es; left; rfl
  | succ n ih =>
    intro st es
    rcases h : step opt sr st es with ⟨anns, oc⟩
    cases oc with
    | next st2 es2 =>
      have hr : run opt sr (n + 1) st es =
          (anns ++ (run opt sr n st2 es2).1, (run opt sr n st2 es2).2) := by
        simp only [run, h]
      rw [hr]
      exact ih st2 es2
    | eos => left; simp only [run, h]
    | exn => right; simp only [run, h]

set_option maxRecDepth 4000 in
/-- Claim C5 amended: for every tolerance profile and every input stream,
decode surfaces the samplerate failure to the caller if and only if it is
invoked without a usable samplerate (absent, or the falsy value 0); with a
usable samplerate the only failure decode can surface is the unbound-local
error of an unbound command label, so timing anomalies never surface the
samplerate failure.  A transaction with command value 1 does surface the
unbound-local failure (stream cmd1Stream), while a sync timing anomaly is
handled by a silent state reset with nothing surfaced (stream
syncBadStream). -/
theorem C5_failure_modes :
    (∀ (opt : TolOpt) (es : List Edge),
      decode opt none es = ([], some .samplerateError) ∧
      decode opt (some 0) es = ([], some .samplerateError)) ∧
    (∀ (opt : TolOpt) (s : Option ℚ) (es : List Edge),
      (decode opt s es).2 = some .samplerateError ↔ (s = none ∨ s = some 0)) ∧
    (∀ (opt : TolOpt) (sr : ℚ) (es : List Edge), ¬sr = 0 →
      (decode opt (some sr) es).2 = none ∨
      (decode opt (some sr) es).2 = some .unboundLocalError) ∧
    (decode .strict (some 1000000) cmd1Stream).2 = some .unboundLocalError ∧
    (decode .strict (some 1000000) syncBadStream).2 = none := by
  have husable : ∀ (opt : TolOpt) (sr : ℚ) (es : List Edge), ¬sr = 0 →
      (decode opt (some sr) es).2 = none ∨
      (decode opt (some sr) es).2 = some .unboundLocalError := by
    intro opt sr es h0
    simp only [decode, if_neg h0]
    exact run_exn opt sr (es.length + 1) initState es
  refine ⟨fun opt es => ⟨rfl, by simp [decode]⟩, ?_, husable, ?_, ?_⟩
  · intro opt s es
    cases s with
    | none => simp [decode]
    | some sr =>
      by_cases h0 : sr = 0
      · subst h0; simp [decode]
      · rcases husable opt sr es h0 with h | h <;>
          simp [h, h0, Option.some_inj]
  · norm_num [decode, checks, run, step, cmdLoop, waitDir, initState, interval,
      timing, timingTol, check_tolerance, classify_bit, accumStep, commandLabel,
      cmd1Stream, validStream, cellsEdges, cellEdges, lowDur, tsZero, tsOne,
      someLabel_ne, dir_rf, dir_fr]
  · norm_num [decode, checks, run, step, waitDir, initState, interval, timing,
      timingTol, check_tolerance, syncBadStream, dir_rf, dir_fr]

end ADB
